import Mathlib

/-!
Verification development for the `cheetah` dipole magnet element
(`src/cheetah/accelerator/dipole.py`).

The floating-point tensor arithmetic of the source is embedded as real
arithmetic (`ℝ`).  Batched tensors appear in two granularities:

* a scalar view `DipoleS` used for the per-particle / per-batch-slot maps
  (the source code is elementwise in the batch and particle axes), and
* a list view `Dipole` used for the batched field handling
  (`hx`, `broadcast`), where a 1-D batch tensor is a `List ℝ`.

Functions of the repository that are referenced by `dipole.py` but whose
source is not part of the considered tree (`cheetah.utils.bmadx` helpers,
`cheetah.track_methods.base_rmatrix` / `rotation_matrix`, the base
`Element.track`, and the `ParticleBeam` class) are modelled from the
specification; each such definition carries a doc comment saying so.
-/

noncomputable section

namespace Cheetah

open Real

/-- Modelled from the spec: `cheetah.utils.bmadx.sinc` (module absent from the
source tree).  Spec §4.3f: `sinc(u) = sin(u)/u` with limit `sinc(0) = 1`. -/
def sinc (u : ℝ) : ℝ := if u = 0 then 1 else Real.sin u / u

/-- Modelled from the spec: `cheetah.utils.bmadx.cosc` (module absent from the
source tree).  Spec §4.3f: `cosc(u) = (1-cos(u))/u²` with limit `cosc(0) = 0.5`. -/
def cosc (u : ℝ) : ℝ := if u = 0 then 0.5 else (1 - Real.cos u) / u ^ 2

/-- Model of `torch.arctan2 y x`: the angle of the point `(x, y)`, in `(-π, π]`. -/
def arctan2 (y x : ℝ) : ℝ := Complex.arg { re := x, im := y }

/-- Modelled from the spec: `cheetah.utils.bmadx.offset_particle_set` (module
absent from the source tree).  Spec §4.3 step 2: rotate `(x,px,y,py)` into the
magnet's tilted local frame; no translational offset is used for this element.
Returns `(x, px, y, py)` in the tilted frame. -/
def offset_particle_set (tilt x px y py : ℝ) : ℝ × ℝ × ℝ × ℝ :=
  (x * Real.cos tilt + y * Real.sin tilt,
   px * Real.cos tilt + py * Real.sin tilt,
   -x * Real.sin tilt + y * Real.cos tilt,
   -px * Real.sin tilt + py * Real.cos tilt)

/-- Modelled from the spec: `cheetah.utils.bmadx.offset_particle_unset` (module
absent from the source tree).  Spec §4.3 step 6: the exact inverse rotation of
`offset_particle_set`. -/
def offset_particle_unset (tilt x px y py : ℝ) : ℝ × ℝ × ℝ × ℝ :=
  (x * Real.cos tilt - y * Real.sin tilt,
   px * Real.cos tilt - py * Real.sin tilt,
   x * Real.sin tilt + y * Real.cos tilt,
   px * Real.sin tilt + py * Real.cos tilt)

/-- Modelled from the spec: the coordinate converter of spec §4.4
(`cheetah.utils.bmadx.cheetah_to_bmad_z_pz` / `bmad_to_cheetah_z_pz`, module
absent from the source tree).  The spec fixes only the signatures — native
`(tau, delta, energy, mc2) ↦ (z, pz, p0c_particle)` and its inverse
`(z, pz, p0c_particle, mc2) ↦ (tau, delta, ref_energy)` — so the two functions
are kept abstract. -/
structure CoordinateConverter where
  to_bmad : ℝ → ℝ → ℝ → ℝ → ℝ × ℝ × ℝ
  to_cheetah : ℝ → ℝ → ℝ → ℝ → ℝ × ℝ × ℝ

/-- Source: `electron_mass_eV` of `dipole.py` lines 18-21: the electron mass energy
equivalent in MeV (CODATA value used by `scipy.constants`), times `1e6`. -/
def electron_mass_eV : ℝ := 0.51099895000 * 1e6

/-- Scalar (single batch slot) view of the `Dipole` element of `dipole.py`:
one real per numeric field, as seen by the elementwise tracking maps. -/
structure DipoleS where
  length : ℝ
  p0c : ℝ
  angle : ℝ
  k1 : ℝ
  e1 : ℝ
  e2 : ℝ
  tilt : ℝ
  gap : ℝ
  gap_exit : ℝ
  fringe_integral : ℝ
  fringe_integral_exit : ℝ
  fringe_at : String
  fringe_type : String
  tracking_method : String

namespace DipoleS

/-- The `hx` property (`dipole.py` lines 160-166), elementwise:
`angle/length` where `length ≠ 0`, `0` where `length = 0`. -/
def hx (d : DipoleS) : ℝ := if d.length ≠ 0 then d.angle / d.length else 0

/-- Source: `g = self.angle / self.length` of `_bmadx_body` line 257 (unguarded). -/
def body_g (d : DipoleS) : ℝ := d.angle / d.length

/-- Source: `px_norm = sqrt((1 + pz)**2 - py**2)` of `_bmadx_body` line 255
(arguments are the already-rescaled momenta). -/
def px_norm (py pz : ℝ) : ℝ := Real.sqrt ((1 + pz) ^ 2 - py ^ 2)

/-- Source: `phi1 = arcsin(px / px_norm)` of `_bmadx_body` line 256. -/
def phi1 (px py pz : ℝ) : ℝ := Real.arcsin (px / px_norm py pz)

/-- Source: `gp = g / px_norm` of `_bmadx_body` line 258. -/
def body_gp (d : DipoleS) (py pz : ℝ) : ℝ := d.body_g / px_norm py pz

/-- Source: `alpha` of `_bmadx_body` lines 260-267. -/
def body_alpha (d : DipoleS) (x px py pz : ℝ) : ℝ :=
  2 * (1 + d.body_g * x) * Real.sin (d.angle + phi1 px py pz) * d.length * sinc d.angle
    - d.body_gp py pz * ((1 + d.body_g * x) * d.length * sinc d.angle) ^ 2

/-- Source: `x2_t1 = x*cos(angle) + length**2 * g * cosc(angle)` of line 269. -/
def x2_t1 (d : DipoleS) (x : ℝ) : ℝ :=
  x * Real.cos d.angle + d.length ^ 2 * d.body_g * cosc d.angle

/-- Source: `x2_t2 = sqrt(cos(angle + phi1)**2 + gp * alpha)` of line 271. -/
def x2_t2 (d : DipoleS) (x px py pz : ℝ) : ℝ :=
  Real.sqrt (Real.cos (d.angle + phi1 px py pz) ^ 2 + d.body_gp py pz * d.body_alpha x px py pz)

/-- Source: `x2_t3 = cos(angle + phi1)` of line 272. -/
def x2_t3 (d : DipoleS) (px py pz : ℝ) : ℝ := Real.cos (d.angle + phi1 px py pz)

/-- Source: `c1 = x2_t1 + alpha / (x2_t2 + x2_t3)` of line 274 (branch A). -/
def body_c1 (d : DipoleS) (x px py pz : ℝ) : ℝ :=
  d.x2_t1 x + d.body_alpha x px py pz / (d.x2_t2 x px py pz + d.x2_t3 px py pz)

/-- Source: `c2 = x2_t1 + (x2_t2 - x2_t3) / gp` of line 275 (branch B). -/
def body_c2 (d : DipoleS) (x px py pz : ℝ) : ℝ :=
  d.x2_t1 x + (d.x2_t2 x px py pz - d.x2_t3 px py pz) / d.body_gp py pz

/-- Source: `x2 = c1 * (temp < pi/2) + c2 * (temp >= pi/2)` of lines 276-277, with
`temp = |angle + phi1|`; the boolean factors become indicator conditionals. -/
def body_x2 (d : DipoleS) (x px py pz : ℝ) : ℝ :=
  (if |d.angle + phi1 px py pz| < Real.pi / 2 then d.body_c1 x px py pz else 0)
    + (if Real.pi / 2 ≤ |d.angle + phi1 px py pz| then d.body_c2 x px py pz else 0)

/-- Source: `_bmadx_body` of `dipole.py` lines 250-301: the closed-form ray trace
through the sector bend.  Input and output are
`(x, px, y, py, z, pz)`; `p0c_particle` and `mc2` as in the source. -/
def bmadx_body (d : DipoleS) (x px y py z pz p0c_particle mc2 : ℝ) :
    ℝ × ℝ × ℝ × ℝ × ℝ × ℝ :=
  let px1 := px * p0c_particle / d.p0c
  let py1 := py * p0c_particle / d.p0c
  let pz1 := (pz + 1) * p0c_particle / d.p0c - 1
  let pxn := px_norm py1 pz1
  let f1 := phi1 px1 py1 pz1
  let x2 := d.body_x2 x px1 py1 pz1
  let Lcu := x2 - d.length ^ 2 * d.body_g * cosc d.angle - x * Real.cos d.angle
  let Lcv := -d.length * sinc d.angle - x * Real.sin d.angle
  let theta_p := 2 * (d.angle + f1 - Real.pi / 2 - arctan2 Lcv Lcu)
  let Lc := Real.sqrt (Lcu ^ 2 + Lcv ^ 2)
  let Lp := Lc / sinc (theta_p / 2)
  let P := d.p0c * (1 + pz1)
  let E := Real.sqrt (P ^ 2 + mc2 ^ 2)
  let E0 := Real.sqrt (d.p0c ^ 2 + mc2 ^ 2)
  let beta := P / E
  let beta0 := d.p0c / E0
  (x2,
   pxn * Real.sin (d.angle + f1 - theta_p),
   y + py1 * Lp / pxn,
   py1,
   z + (beta * d.length / beta0) - ((1 + pz1) * Lp / pxn),
   pz1)

/-- Source: `_bmadx_fringe_linear` of `dipole.py` lines 303-332: the per-particle
linear fringe kick; `location` is the string `"entrance"` or `"exit"`; returns
the updated `(px, py)`.  The Python face selection
`e1*(location=="entrance") + e2*(location=="exit")` becomes indicator sums. -/
def bmadx_fringe_linear (d : DipoleS) (location : String)
    (x px y py pz p0c_particle : ℝ) : ℝ × ℝ :=
  let px1 := px * p0c_particle / d.p0c
  let py1 := py * p0c_particle / d.p0c
  let _pz1 := (pz + 1) * p0c_particle / d.p0c - 1
  let g := d.angle / d.length
  let e := d.e1 * (if location = "entrance" then 1 else 0)
    + d.e2 * (if location = "exit" then 1 else 0)
  let f_int := d.fringe_integral * (if location = "entrance" then 1 else 0)
    + d.fringe_integral_exit * (if location = "exit" then 1 else 0)
  let h_gap := 0.5 * (d.gap * (if location = "entrance" then 1 else 0)
    + d.gap_exit * (if location = "exit" then 1 else 0))
  let hx := g * Real.tan e
  let hy := -g * Real.tan (e - 2 * f_int * h_gap * g * (1 + Real.sin e ^ 2) / Real.cos e)
  (px1 + x * hx, py1 + y * hy)

end DipoleS

/-- Batched 7×7 transfer matrices of the linear method, one batch slot. -/
abbrev M7 := Matrix (Fin 7) (Fin 7) ℝ

namespace DipoleS

/-- The `phi` of `_transfer_map_enter` (`dipole.py` lines 370-377):
`fringe_integral * hx * gap * sec(e1) * (1 + sin(e1)**2)`. -/
def transfer_map_enter_phi (d : DipoleS) : ℝ :=
  d.fringe_integral * d.hx * d.gap * (1.0 / Real.cos d.e1) * (1 + Real.sin d.e1 ^ 2)

/-- Source: `_transfer_map_enter` of `dipole.py` lines 365-383: identity except
`tm[1,0] = hx*tan(e1)` and `tm[3,2] = -hx*tan(e1 - phi)`. -/
def transfer_map_enter (d : DipoleS) : M7 :=
  Matrix.of fun i j =>
    if i = 1 ∧ j = 0 then d.hx * Real.tan d.e1
    else if i = 3 ∧ j = 2 then -d.hx * Real.tan (d.e1 - d.transfer_map_enter_phi)
    else if i = j then 1 else 0

/-- The `phi` of `_transfer_map_exit` (`dipole.py` lines 390-397).  Note the
source multiplies by `self.gap`, not `self.gap_exit`:
`fringe_integral_exit * hx * gap * sec(e2) * (1 + sin(e2)**2)`. -/
def transfer_map_exit_phi (d : DipoleS) : ℝ :=
  d.fringe_integral_exit * d.hx * d.gap * (1.0 / Real.cos d.e2) * (1 + Real.sin d.e2 ^ 2)

/-- The exit fringe phase as the specification words it (§4.2): the exit face
pairs with the exit gap, `fringe_integral_exit * hx * gap_exit * sec(e2) *
(1 + sin(e2)²)`.  Stated for comparison with `transfer_map_exit_phi`. -/
def transfer_map_exit_phi_spec (d : DipoleS) : ℝ :=
  d.fringe_integral_exit * d.hx * d.gap_exit * (1.0 / Real.cos d.e2) * (1 + Real.sin d.e2 ^ 2)

/-- Source: `_transfer_map_exit` of `dipole.py` lines 385-403: identity except
`tm[1,0] = hx*tan(e2)` and `tm[3,2] = -hx*tan(e2 - phi)`. -/
def transfer_map_exit (d : DipoleS) : M7 :=
  Matrix.of fun i j =>
    if i = 1 ∧ j = 0 then d.hx * Real.tan d.e2
    else if i = 3 ∧ j = 2 then -d.hx * Real.tan (d.e2 - d.transfer_map_exit_phi)
    else if i = j then 1 else 0

/-- The thin-corrector substitute matrix of `transfer_map` lines 349-355:
identity with `R[0,1] = length`, `R[2,6] = angle`, `R[2,3] = length`. -/
def thin_corrector (d : DipoleS) : M7 :=
  Matrix.of fun i j =>
    if i = 0 ∧ j = 1 then d.length
    else if i = 2 ∧ j = 6 then d.angle
    else if i = 2 ∧ j = 3 then d.length
    else if i = j then 1 else 0

/-- Source: `transfer_map` of `dipole.py` lines 334-363, one batch slot.  The shared
linear-optics routine `base_rmatrix(length, k1, hx, tilt, energy)` and the
`rotation_matrix` utility live in `cheetah.track_methods`, outside the source
tree (spec §6 external interfaces), so they are passed in abstractly. -/
def transfer_map (base_rmatrix : ℝ → ℝ → ℝ → ℝ → ℝ → M7)
    (rotation_matrix : ℝ → M7) (d : DipoleS) (energy : ℝ) : M7 :=
  let R_enter := d.transfer_map_enter
  let R_exit := d.transfer_map_exit
  let R := if d.length ≠ 0.0 then base_rmatrix d.length d.k1 d.hx 0 energy
    else d.thin_corrector
  let R1 := R_exit * (R * R_enter)
  rotation_matrix (-d.tilt) * (R1 * rotation_matrix d.tilt)

end DipoleS

/-- Modelled from the spec: the particle-ensemble beam (`cheetah.particles.
ParticleBeam`, absent from the source tree); spec §3/§6: canonical coordinates
`(x, px, y, py, tau, delta)`, particle charge and a reference energy.  One
particle (the integrator is elementwise in the particle axis). -/
structure ParticleBeam where
  x : ℝ
  px : ℝ
  y : ℝ
  py : ℝ
  tau : ℝ
  delta : ℝ
  energy : ℝ
  charge : ℝ

/-- Modelled from the spec: a beam is either a particle ensemble or a
parametric beam of first/second moments (spec §3). -/
inductive Beam where
  | particle (pb : ParticleBeam)
  | parametric (mu : Fin 7 → ℝ) (cov : M7) (energy : ℝ)

/-- Whether a beam is a particle ensemble (`isinstance(incoming, ParticleBeam)`
of `dipole.py` line 186). -/
def Beam.isParticleBeam : Beam → Bool
  | .particle _ => true
  | .parametric _ _ _ => false

/-- The errors `Dipole.track` can raise (`dipole.py` lines 186-194): the
`assert isinstance(incoming, ParticleBeam)` failure, and the `ValueError`
naming the invalid tracking method and the two supported ones. -/
inductive TrackError where
  | bmadxRequiresParticleBeam
  | invalidTrackingMethod (invalid legal1 legal2 : String)
deriving DecidableEq

namespace DipoleS

/-- Source: `_track_bmadx` of `dipole.py` lines 196-248 with the rest-mass energy
`mc2` as an explicit argument (generalising line 205, which fixes it to
`electron_mass_eV`).  The coordinate converter `cv` stands for the
`cheetah.utils.bmadx` conversion pair (spec §4.4). -/
def track_bmadx_mc2 (cv : CoordinateConverter) (d : DipoleS)
    (incoming : ParticleBeam) (mc2 : ℝ) : ParticleBeam :=
  let zp := cv.to_bmad incoming.tau incoming.delta incoming.energy mc2
  let z := zp.1
  let pz := zp.2.1
  let p0c_particle := zp.2.2
  let o := offset_particle_set d.tilt incoming.x incoming.px incoming.y incoming.py
  let x := o.1
  let px := o.2.1
  let y := o.2.2.1
  let py := o.2.2.2
  let pf :=
    if d.fringe_at = "entrance_end" ∨ d.fringe_at = "both_ends" then
      d.bmadx_fringe_linear "entrance" x px y py pz p0c_particle
    else (px, py)
  let b := d.bmadx_body x pf.1 y pf.2 z pz p0c_particle mc2
  let x1 := b.1
  let px1 := b.2.1
  let y1 := b.2.2.1
  let py1 := b.2.2.2.1
  let z1 := b.2.2.2.2.1
  let pz1 := b.2.2.2.2.2
  let pf1 :=
    if d.fringe_at = "exit_end" ∨ d.fringe_at = "both_ends" then
      d.bmadx_fringe_linear "exit" x1 px1 y1 py1 pz1 p0c_particle
    else (px1, py1)
  let o1 := offset_particle_unset d.tilt x1 pf1.1 y1 pf1.2
  let back := cv.to_cheetah z1 pz1 p0c_particle mc2
  { x := o1.1, px := o1.2.1, y := o1.2.2.1, py := o1.2.2.2,
    tau := back.1, delta := back.2.1, energy := back.2.2,
    charge := incoming.charge }

/-- Source: `_track_bmadx` of `dipole.py` lines 196-248 as written: line 205 binds
`mc2` to the fixed `electron_mass_eV` constant before the pipeline runs. -/
def track_bmadx (cv : CoordinateConverter) (d : DipoleS)
    (incoming : ParticleBeam) : ParticleBeam :=
  let mc2 := electron_mass_eV
  let zp := cv.to_bmad incoming.tau incoming.delta incoming.energy mc2
  let z := zp.1
  let pz := zp.2.1
  let p0c_particle := zp.2.2
  let o := offset_particle_set d.tilt incoming.x incoming.px incoming.y incoming.py
  let x := o.1
  let px := o.2.1
  let y := o.2.2.1
  let py := o.2.2.2
  let pf :=
    if d.fringe_at = "entrance_end" ∨ d.fringe_at = "both_ends" then
      d.bmadx_fringe_linear "entrance" x px y py pz p0c_particle
    else (px, py)
  let b := d.bmadx_body x pf.1 y pf.2 z pz p0c_particle mc2
  let x1 := b.1
  let px1 := b.2.1
  let y1 := b.2.2.1
  let py1 := b.2.2.2.1
  let z1 := b.2.2.2.2.1
  let pz1 := b.2.2.2.2.2
  let pf1 :=
    if d.fringe_at = "exit_end" ∨ d.fringe_at = "both_ends" then
      d.bmadx_fringe_linear "exit" x1 px1 y1 py1 pz1 p0c_particle
    else (px1, py1)
  let o1 := offset_particle_unset d.tilt x1 pf1.1 y1 pf1.2
  let back := cv.to_cheetah z1 pz1 p0c_particle mc2
  { x := o1.1, px := o1.2.1, y := o1.2.2.1, py := o1.2.2.2,
    tau := back.1, delta := back.2.1, energy := back.2.2,
    charge := incoming.charge }

/-- Modelled from the spec: the inherited linear-method `Element.track`
(absent from the source tree); spec §4.2/§6: apply the element's 7×7 transfer
map at the beam energy — to the homogeneous particle vector
`(x, px, y, py, tau, delta, 1)` for a particle ensemble, and to the
moments (`R·mu`, `R·cov·Rᵀ`) for a parametric beam; beam energy is kept. -/
def linear_track (base_rmatrix : ℝ → ℝ → ℝ → ℝ → ℝ → M7)
    (rotation_matrix : ℝ → M7) (d : DipoleS) : Beam → Beam
  | .particle pb =>
    let R := d.transfer_map base_rmatrix rotation_matrix pb.energy
    let v := R.mulVec ![pb.x, pb.px, pb.y, pb.py, pb.tau, pb.delta, 1]
    .particle { x := v 0, px := v 1, y := v 2, py := v 3, tau := v 4,
                delta := v 5, energy := pb.energy, charge := pb.charge }
  | .parametric mu cov energy =>
    let R := d.transfer_map base_rmatrix rotation_matrix energy
    .parametric (R.mulVec mu) (R * cov * R.transpose) energy

/-- Source: `Dipole.track` of `dipole.py` lines 176-194: dispatch on
`tracking_method`; `"cheetah"` delegates to the linear method, `"bmadx"`
requires a particle ensemble, anything else is a `ValueError` naming the
invalid value and the two supported methods. -/
def track (cv : CoordinateConverter) (base_rmatrix : ℝ → ℝ → ℝ → ℝ → ℝ → M7)
    (rotation_matrix : ℝ → M7) (d : DipoleS) (incoming : Beam) :
    Except TrackError Beam :=
  if d.tracking_method = "cheetah" then
    .ok (d.linear_track base_rmatrix rotation_matrix incoming)
  else if d.tracking_method = "bmadx" then
    match incoming with
    | .particle pb => .ok (.particle (d.track_bmadx cv pb))
    | .parametric _ _ _ => .error .bmadxRequiresParticleBeam
  else
    .error (.invalidTrackingMethod d.tracking_method "cheetah" "bmadx")

end DipoleS

/-- The batched `Dipole` element of `dipole.py`: every numeric field a 1-D
batch tensor, modelled as a `List ℝ`, plus the categorical fields. -/
structure Dipole where
  length : List ℝ
  p0c : List ℝ
  angle : List ℝ
  k1 : List ℝ
  e1 : List ℝ
  e2 : List ℝ
  tilt : List ℝ
  gap : List ℝ
  gap_exit : List ℝ
  fringe_integral : List ℝ
  fringe_integral_exit : List ℝ
  fringe_at : String
  fringe_type : String
  tracking_method : String
  name : String

/-- Model of `tensor.repeat((n,))` on a 1-D tensor: the list tiled `n` times. -/
def tensorRepeat (n : ℕ) (xs : List ℝ) : List ℝ :=
  (List.replicate n xs).flatten

/-- The `Dipole.__init__` constructor of `dipole.py` lines 50-158: optional
tensor arguments default to `zeros_like(length)`, except
`fringe_integral_exit` (defaults to `fringe_integral`) and `gap_exit`
(defaults to `1.0 * gap`). -/
def mkDipole (length : List ℝ)
    (p0c angle k1 e1 e2 tilt gap gap_exit fringe_integral fringe_integral_exit :
      Option (List ℝ))
    (fringe_at fringe_type tracking_method name : String) : Dipole :=
  let zeros := List.replicate length.length (0 : ℝ)
  let fi := fringe_integral.getD zeros
  let g := gap.getD zeros
  { length := length
    p0c := p0c.getD zeros
    angle := angle.getD zeros
    k1 := k1.getD zeros
    e1 := e1.getD zeros
    e2 := e2.getD zeros
    tilt := tilt.getD zeros
    gap := g
    gap_exit := gap_exit.getD (g.map fun t => 1.0 * t)
    fringe_integral := fi
    fringe_integral_exit := fringe_integral_exit.getD fi
    fringe_at := fringe_at
    fringe_type := fringe_type
    tracking_method := tracking_method
    name := name }

namespace Dipole

/-- The `hx` property of `dipole.py` lines 160-166: a zero tensor with
`angle/length` written into the positions where `length ≠ 0`. -/
def hx (d : Dipole) : List ℝ :=
  List.zipWith (fun l a => if l ≠ 0 then a / l else 0) d.length d.angle

/-- Source: `Dipole.broadcast` of `dipole.py` lines 405-419 for a 1-D shape `(n,)`:
calls the constructor with only `length, angle, k1, e1, e2, tilt,
fringe_integral, fringe_integral_exit, gap` repeated, plus `name`; every other
constructor argument is left to its `__init__` default — `p0c` and `gap_exit`
to `none`, and the categoricals to `"both_ends"`, `"linear_edge"`,
`"cheetah"` (the defaults of `dipole.py` lines 63-67). -/
def broadcast (d : Dipole) (n : ℕ) : Dipole :=
  mkDipole (tensorRepeat n d.length)
    none
    (some (tensorRepeat n d.angle))
    (some (tensorRepeat n d.k1))
    (some (tensorRepeat n d.e1))
    (some (tensorRepeat n d.e2))
    (some (tensorRepeat n d.tilt))
    (some (tensorRepeat n d.gap))
    none
    (some (tensorRepeat n d.fringe_integral))
    (some (tensorRepeat n d.fringe_integral_exit))
    "both_ends" "linear_edge" "cheetah" d.name

end Dipole

/-! Concrete instances used to close hypotheses of the theorems below. -/

/-- A zero-parameter scalar dipole of unit length and unit reference
momentum, used as a concrete evaluation point. -/
def dzero : DipoleS :=
  { length := 1, p0c := 1, angle := 0, k1 := 0, e1 := 0, e2 := 0, tilt := 0,
    gap := 0, gap_exit := 0, fringe_integral := 0, fringe_integral_exit := 0,
    fringe_at := "both_ends", fringe_type := "linear_edge",
    tracking_method := "cheetah" }

/-! ### Claim theorems -/

/-- C1: In the nonlinear body map, the exit position `x2` equals branch A,
`x2_t1 + alpha/(x2_t2 + x2_t3)`, exactly when `|angle + phi1| < π/2`, and
equals branch B, `x2_t1 + (x2_t2 - x2_t3)/gp`, exactly when
`|angle + phi1| ≥ π/2`; and the first component of `_bmadx_body` is this `x2`
evaluated at the step-a rescaled momenta. -/
theorem bmadx_body_x2_branch_selection (d : DipoleS) (x px y py z pz p0c_particle mc2 : ℝ) :
    (|d.angle + DipoleS.phi1 px py pz| < Real.pi / 2 →
      d.body_x2 x px py pz =
        d.x2_t1 x + d.body_alpha x px py pz /
          (d.x2_t2 x px py pz + d.x2_t3 px py pz)) ∧
    (Real.pi / 2 ≤ |d.angle + DipoleS.phi1 px py pz| →
      d.body_x2 x px py pz =
        d.x2_t1 x + (d.x2_t2 x px py pz - d.x2_t3 px py pz) / d.body_gp py pz) ∧
    (d.bmadx_body x px y py z pz p0c_particle mc2).1 =
      d.body_x2 x (px * p0c_particle / d.p0c) (py * p0c_particle / d.p0c)
        ((pz + 1) * p0c_particle / d.p0c - 1) := by
  refine ⟨fun h => ?_, fun h => ?_, rfl⟩
  · rw [DipoleS.body_x2, if_pos h, if_neg (not_le.mpr h), add_zero, DipoleS.body_c1]
  · rw [DipoleS.body_x2, if_neg (not_lt.mpr h), if_pos h, zero_add, DipoleS.body_c2]

/-- Witness for C1: at the zero dipole and the zero particle the branch
predicate `|angle + phi1| < π/2` holds and branch A is taken. -/
theorem bmadx_body_x2_branch_selection_witness :
    |dzero.angle + DipoleS.phi1 0 0 0| < Real.pi / 2 ∧
    dzero.body_x2 0 0 0 0 =
      dzero.x2_t1 0 + dzero.body_alpha 0 0 0 0 /
        (dzero.x2_t2 0 0 0 0 + dzero.x2_t3 0 0 0) := by
  have h : |dzero.angle + DipoleS.phi1 0 0 0| < Real.pi / 2 := by
    have h1 : DipoleS.phi1 0 0 0 = 0 := by
      simp [DipoleS.phi1]
    rw [h1]
    show |(0 : ℝ) + 0| < Real.pi / 2
    simpa using half_pos Real.pi_pos
  exact ⟨h, (bmadx_body_x2_branch_selection dzero 0 0 0 0 0 0 1 1).1 h⟩

/-- C8: The nonlinear body map leaves `py` and `pz` unchanged after the
step-a rescale: the returned `py_f` is `py·p0c_particle/p0c` and the returned
`pz_f` is `(pz+1)·p0c_particle/p0c − 1`. -/
theorem bmadx_body_py_pz_unchanged (d : DipoleS) (x px y py z pz p0c_particle mc2 : ℝ) :
    (d.bmadx_body x px y py z pz p0c_particle mc2).2.2.2.1 =
      py * p0c_particle / d.p0c ∧
    (d.bmadx_body x px y py z pz p0c_particle mc2).2.2.2.2.2 =
      (pz + 1) * p0c_particle / d.p0c - 1 :=
  ⟨rfl, rfl⟩

/-- C9: The linear transfer map is independent of `fringe_at`: two dipoles
whose fields differ only in the `fringe_at` setting produce identical
`transfer_map` matrices, for every linear-optics routine and rotation
utility, because the entrance and exit fringe maps are composed
unconditionally. -/
theorem transfer_map_independent_of_fringe_at
    (base_rmatrix : ℝ → ℝ → ℝ → ℝ → ℝ → M7) (rotation_matrix : ℝ → M7)
    (d : DipoleS) (fa1 fa2 : String) (energy : ℝ) :
    DipoleS.transfer_map base_rmatrix rotation_matrix { d with fringe_at := fa1 } energy =
      DipoleS.transfer_map base_rmatrix rotation_matrix { d with fringe_at := fa2 } energy :=
  rfl

/-- C10: The nonlinear integrator always uses the fixed electron rest-mass
energy as `mc2`: `_track_bmadx` coincides with the `mc2`-generic pipeline
evaluated at `electron_mass_eV` for every converter, dipole and beam, and the
constant is the electron mass energy equivalent, `510998.95` eV. -/
theorem track_bmadx_uses_electron_mass (cv : CoordinateConverter)
    (d : DipoleS) (incoming : ParticleBeam) :
    d.track_bmadx cv incoming = d.track_bmadx_mc2 cv incoming electron_mass_eV ∧
    electron_mass_eV = 510998.95 :=
  ⟨rfl, by norm_num [electron_mass_eV]⟩

/-- C5: `track` returns the configuration error naming the invalid value and
the two legal tracking methods exactly when `tracking_method` is neither
legal option; it returns the capability error exactly when the nonlinear
method is invoked on a beam that is not a particle ensemble; in all other
cases it returns an outgoing beam.  The embedding is pure, so both error
paths construct no outgoing beam and touch neither the element nor the
incoming beam. -/
theorem track_error_handling (cv : CoordinateConverter)
    (base_rmatrix : ℝ → ℝ → ℝ → ℝ → ℝ → M7) (rotation_matrix : ℝ → M7)
    (d : DipoleS) (incoming : Beam) :
    (d.tracking_method ≠ "cheetah" → d.tracking_method ≠ "bmadx" →
      DipoleS.track cv base_rmatrix rotation_matrix d incoming =
        .error (.invalidTrackingMethod d.tracking_method "cheetah" "bmadx")) ∧
    (d.tracking_method = "bmadx" → incoming.isParticleBeam = false →
      DipoleS.track cv base_rmatrix rotation_matrix d incoming =
        .error .bmadxRequiresParticleBeam) ∧
    (d.tracking_method = "cheetah" ∨
        (d.tracking_method = "bmadx" ∧ incoming.isParticleBeam = true) →
      ∃ outgoing, DipoleS.track cv base_rmatrix rotation_matrix d incoming =
        .ok outgoing) := by
  refine ⟨fun h1 h2 => ?_, fun h1 h2 => ?_, fun h => ?_⟩
  · rw [DipoleS.track.eq_def, if_neg h1, if_neg h2]
  · have hne : d.tracking_method ≠ "cheetah" := by rw [h1]; decide
    rw [DipoleS.track.eq_def, if_neg hne, if_pos h1]
    cases incoming with
    | particle pb => simp [Beam.isParticleBeam] at h2
    | parametric mu cov energy => rfl
  · rcases h with h | ⟨h1, h2⟩
    · exact ⟨_, by rw [DipoleS.track.eq_def, if_pos h]⟩
    · have hne : d.tracking_method ≠ "cheetah" := by rw [h1]; decide
      cases incoming with
      | particle pb =>
        exact ⟨_, by rw [DipoleS.track.eq_def, if_neg hne, if_pos h1]⟩
      | parametric mu cov energy => simp [Beam.isParticleBeam] at h2

/-- Witness for C5: all three branches at concrete inputs — an unknown
method `"linear"` yields the configuration error, the nonlinear method on a
parametric beam yields the capability error, and the linear method returns a
beam. -/
theorem track_error_handling_witness :
    DipoleS.track ⟨fun _ _ _ _ => (0, 0, 0), fun _ _ _ _ => (0, 0, 0)⟩
        (fun _ _ _ _ _ => 1) (fun _ => 1)
        { dzero with tracking_method := "linear" } (.parametric 0 1 1) =
      .error (.invalidTrackingMethod "linear" "cheetah" "bmadx") ∧
    DipoleS.track ⟨fun _ _ _ _ => (0, 0, 0), fun _ _ _ _ => (0, 0, 0)⟩
        (fun _ _ _ _ _ => 1) (fun _ => 1)
        { dzero with tracking_method := "bmadx" } (.parametric 0 1 1) =
      .error .bmadxRequiresParticleBeam ∧
    ∃ outgoing, DipoleS.track ⟨fun _ _ _ _ => (0, 0, 0), fun _ _ _ _ => (0, 0, 0)⟩
        (fun _ _ _ _ _ => 1) (fun _ => 1) dzero (.parametric 0 1 1) = .ok outgoing :=
  ⟨(track_error_handling _ _ _ _ _).1 (by decide) (by decide),
   (track_error_handling _ _ _ _ _).2.1 rfl rfl,
   (track_error_handling _ _ _ _ _).2.2 (Or.inl rfl)⟩

/-- C6: The derived curvature `hx` is elementwise `angle/length` at every
position where `length ≠ 0` and exactly `0` at every position where
`length = 0`; every entry is a well-defined real number (the division by zero
is guarded, even where `angle ≠ 0`), and the batch length is preserved. -/
theorem hx_elementwise (d : Dipole) (h : d.angle.length = d.length.length) :
    d.hx.length = d.length.length ∧
    ∀ (i : ℕ) (li ai : ℝ), d.length[i]? = some li → d.angle[i]? = some ai →
      (li ≠ 0 → d.hx[i]? = some (ai / li)) ∧ (li = 0 → d.hx[i]? = some 0) := by
  constructor
  · rw [Dipole.hx, List.length_zipWith, h, min_self]
  · intro i li ai hl ha
    have hi : i < d.length.length := by
      have := List.getElem?_eq_some_iff.mp hl
      exact this.choose
    have hia : i < d.angle.length := by rw [h]; exact hi
    have hget : d.hx[i]? = some (if d.length[i] ≠ 0 then d.angle[i] / d.length[i] else 0) := by
      rw [Dipole.hx]
      rw [List.getElem?_eq_getElem (by rw [List.length_zipWith, h, min_self]; exact hi)]
      rw [List.getElem_zipWith]
    have hli : d.length[i] = li := by
      have := List.getElem?_eq_some_iff.mp hl
      rw [← this.choose_spec]
    have hai : d.angle[i] = ai := by
      have := List.getElem?_eq_some_iff.mp ha
      rw [← this.choose_spec]
    rw [hli, hai] at hget
    constructor
    · intro hne
      rw [hget, if_pos hne]
    · intro heq
      rw [hget, if_neg (by simp [heq])]

/-- A concrete batched dipole with a zero-length slot, used to evaluate the
`hx` guard. -/
def dhx : Dipole :=
  { length := [0, 2], p0c := [0, 0], angle := [3, 4], k1 := [0, 0],
    e1 := [0, 0], e2 := [0, 0], tilt := [0, 0], gap := [0, 0],
    gap_exit := [0, 0], fringe_integral := [0, 0],
    fringe_integral_exit := [0, 0], fringe_at := "both_ends",
    fringe_type := "linear_edge", tracking_method := "cheetah",
    name := "w" }

/-- Witness for C6: on `length = [0, 2]`, `angle = [3, 4]` the guarded entry
is `0` (despite `angle = 3 ≠ 0`) and the regular entry is `4 / 2`. -/
theorem hx_elementwise_witness :
    dhx.angle.length = dhx.length.length ∧
    dhx.length[0]? = some 0 ∧ dhx.angle[0]? = some 3 ∧
    dhx.hx[0]? = some 0 ∧
    dhx.length[1]? = some 2 ∧ (2 : ℝ) ≠ 0 ∧
    dhx.hx[1]? = some ((4 : ℝ) / 2) :=
  ⟨rfl, rfl, rfl,
   ((hx_elementwise dhx rfl).2 0 0 3 rfl rfl).2 rfl,
   rfl, by norm_num,
   ((hx_elementwise dhx rfl).2 1 2 4 rfl rfl).1 (by norm_num)⟩

/-- A concrete batched dipole whose optional fields are all set away from
their defaults, used to evaluate `broadcast`. -/
def d2 : Dipole :=
  { length := [1], p0c := [5], angle := [2], k1 := [0], e1 := [0], e2 := [0],
    tilt := [0], gap := [3], gap_exit := [4], fringe_integral := [6],
    fringe_integral_exit := [7], fringe_at := "no_end",
    fringe_type := "linear_edge", tracking_method := "bmadx", name := "d2" }

/-- C2 (evidence): `broadcast` does not replicate every field — on a dipole
with `p0c = [5]`, `gap_exit = [4]`, `tracking_method = "bmadx"`,
`fringe_at = "no_end"`, the broadcast to shape `(2,)` resets `p0c` to zeros,
`gap_exit` to the repeated entrance gap, `tracking_method` to `"cheetah"` and
`fringe_at` to `"both_ends"`, while the fields that are passed (here `angle`)
are replicated and `name` is kept. -/
theorem broadcast_drops_fields :
    (d2.broadcast 2).p0c = [0, 0] ∧ d2.p0c = [5] ∧
    (d2.broadcast 2).gap_exit = [3, 3] ∧ d2.gap_exit = [4] ∧
    (d2.broadcast 2).tracking_method = "cheetah" ∧ d2.tracking_method = "bmadx" ∧
    (d2.broadcast 2).fringe_at = "both_ends" ∧ d2.fringe_at = "no_end" ∧
    (d2.broadcast 2).angle = [2, 2] ∧ (d2.broadcast 2).name = "d2" := by
  refine ⟨rfl, rfl, ?_, rfl, rfl, rfl, rfl, rfl, rfl, rfl⟩
  show List.map (fun t => 1.0 * t) (tensorRepeat 2 [3]) = [3, 3]
  norm_num [tensorRepeat, List.replicate]

/-- A concrete batched dipole using the nonlinear tracking method, used to
evaluate `broadcast` for the broadcasting law. -/
def d4 : Dipole :=
  { length := [1], p0c := [7], angle := [1], k1 := [0], e1 := [0], e2 := [0],
    tilt := [0], gap := [1], gap_exit := [1], fringe_integral := [1],
    fringe_integral_exit := [1], fringe_at := "both_ends",
    fringe_type := "linear_edge", tracking_method := "bmadx", name := "d4" }

/-- C4 (evidence): broadcasting a nonlinear-method dipole silently changes
its tracking algorithm and reference momentum — `broadcast` returns a dipole
with `tracking_method = "cheetah"` and `p0c = 0`, so the broadcast element is
tracked by the linear matrix method while each unbroadcast slice is tracked
by the Bmad-X integrator with `p0c = 7`. -/
theorem broadcast_changes_tracking_method :
    d4.tracking_method = "bmadx" ∧ (d4.broadcast 3).tracking_method = "cheetah" ∧
    d4.p0c = [7] ∧ (d4.broadcast 3).p0c = [0, 0, 0] ∧
    (d4.broadcast 3).length = [1, 1, 1] :=
  ⟨rfl, rfl, rfl, rfl, rfl⟩

/-- A concrete scalar dipole with distinct entrance and exit gaps
(`gap = 0`, `gap_exit = 1`) and a nonzero exit fringe integral. -/
def d3 : DipoleS :=
  { length := 1, p0c := 1, angle := 1, k1 := 0, e1 := 0, e2 := 0, tilt := 0,
    gap := 0, gap_exit := 1, fringe_integral := 0, fringe_integral_exit := 1,
    fringe_at := "both_ends", fringe_type := "linear_edge",
    tracking_method := "cheetah" }

/-- C3 (evidence): the exit-face linear fringe map computes its phase from
the entrance gap, not from `gap_exit` — on `d3` (`gap = 0`, `gap_exit = 1`,
`fringe_integral_exit = 1`, `e2 = 0`, `hx = 1`) the code's phase is `0` and
the matrix entry `M[3,2]` is `0`, while the phase demanded by the claim
(computed from `gap_exit`) is `1`, giving entry `-hx·tan(e2-phi) = tan 1 ≠ 0`. -/
theorem transfer_map_exit_uses_entrance_gap :
    d3.hx = 1 ∧
    DipoleS.transfer_map_exit_phi d3 = 0 ∧
    DipoleS.transfer_map_exit_phi_spec d3 = 1 ∧
    DipoleS.transfer_map_exit d3 3 2 = 0 ∧
    -d3.hx * Real.tan (d3.e2 - DipoleS.transfer_map_exit_phi_spec d3) = Real.tan 1 ∧
    Real.tan 1 ≠ 0 := by
  have hx1 : d3.hx = 1 := by norm_num [DipoleS.hx, d3]
  have hphi : DipoleS.transfer_map_exit_phi d3 = 0 := by
    norm_num [DipoleS.transfer_map_exit_phi, d3]
  have hspec : DipoleS.transfer_map_exit_phi_spec d3 = 1 := by
    rw [DipoleS.transfer_map_exit_phi_spec, hx1]
    norm_num [d3]
  have htanpos : 0 < Real.tan 1 :=
    Real.tan_pos_of_pos_of_lt_pi_div_two one_pos (by linarith [Real.pi_gt_three])
  have he2 : d3.e2 = 0 := rfl
  refine ⟨hx1, hphi, hspec, ?_, ?_, htanpos.ne.symm⟩
  · show (Matrix.of _ : M7) 3 2 = 0
    rw [Matrix.of_apply]
    rw [if_neg (by decide), if_pos (by decide)]
    rw [hx1, hphi, he2]
    norm_num
  · rw [hspec, hx1, he2, zero_sub, Real.tan_neg, neg_one_mul, neg_neg]

/-- A concrete coordinate-converter instance: `z = tau`, `pz = delta`,
`p0c_particle = energy`, and the identity-like reverse map.  Used only to
instantiate closed statements. -/
def cvInst : CoordinateConverter :=
  { to_bmad := fun tau delta energy _ => (tau, delta, energy)
    to_cheetah := fun z pz p0c _ => (z, pz, p0c) }

/-- A trivial stand-in for the external linear-optics routine. -/
def brId : ℝ → ℝ → ℝ → ℝ → ℝ → M7 := fun _ _ _ _ _ => 1

/-- A trivial stand-in for the external rotation utility. -/
def rotId : ℝ → M7 := fun _ => 1

/-- A concrete linear-method dipole with `gap = 1 > 0` and
`fringe_integral = 1 > 0`. -/
def d7 : DipoleS :=
  { length := 1, p0c := 1, angle := 1, k1 := 0, e1 := 0, e2 := 0, tilt := 0,
    gap := 1, gap_exit := 1, fringe_integral := 1, fringe_integral_exit := 1,
    fringe_at := "no_end", fringe_type := "linear_edge",
    tracking_method := "cheetah" }

/-- A concrete incoming single-particle beam with a unit vertical offset. -/
def b7 : Beam :=
  .particle { x := 0, px := 0, y := 1, py := 0, tau := 0, delta := 0,
              energy := 1, charge := 1 }

/-- Helper: dispatch equation of `track` for the linear method. -/
lemma track_dispatch_cheetah (cv : CoordinateConverter)
    (base_rmatrix : ℝ → ℝ → ℝ → ℝ → ℝ → M7) (rotation_matrix : ℝ → M7)
    (d : DipoleS) (b : Beam) (h : d.tracking_method = "cheetah") :
    DipoleS.track cv base_rmatrix rotation_matrix d b =
      .ok (d.linear_track base_rmatrix rotation_matrix b) := by
  rw [DipoleS.track.eq_def, if_pos h]

/-- Helper: dispatch equation of `track` for the nonlinear method on a
particle beam. -/
lemma track_dispatch_bmadx (cv : CoordinateConverter)
    (base_rmatrix : ℝ → ℝ → ℝ → ℝ → ℝ → M7) (rotation_matrix : ℝ → M7)
    (d : DipoleS) (pb : ParticleBeam) (h : d.tracking_method = "bmadx") :
    DipoleS.track cv base_rmatrix rotation_matrix d (.particle pb) =
      .ok (.particle (d.track_bmadx cv pb)) := by
  have hne : d.tracking_method ≠ "cheetah" := by rw [h]; decide
  rw [DipoleS.track.eq_def, if_neg hne, if_pos h]

/-- Helper: the linear-method tracking path never consults `fringe_at`. -/
lemma linear_track_fringe_at_congr (base_rmatrix : ℝ → ℝ → ℝ → ℝ → ℝ → M7)
    (rotation_matrix : ℝ → M7) (d : DipoleS) (fa1 fa2 : String) (b : Beam) :
    DipoleS.linear_track base_rmatrix rotation_matrix { d with fringe_at := fa1 } b =
      DipoleS.linear_track base_rmatrix rotation_matrix { d with fringe_at := fa2 } b :=
  rfl

/-- C7 (counterexample): a dipole configuration with `gap = 1 > 0` and
`fringe_integral = 1 > 0` whose tracked output with `fringe_at = "no_end"`
equals the output with `fringe_at = "both_ends"` — the linear tracking
method never consults `fringe_at`. -/
theorem track_fringe_at_equal_on_linear_method :
    d7.gap > 0 ∧ d7.fringe_integral > 0 ∧ d7.fringe_at = "no_end" ∧
    DipoleS.track cvInst brId rotId d7 b7 =
      DipoleS.track cvInst brId rotId { d7 with fringe_at := "both_ends" } b7 := by
  refine ⟨one_pos, one_pos, rfl, ?_⟩
  rw [track_dispatch_cheetah cvInst brId rotId d7 b7 rfl,
    track_dispatch_cheetah cvInst brId rotId { d7 with fringe_at := "both_ends" } b7 rfl]
  exact congrArg Except.ok (linear_track_fringe_at_congr brId rotId d7 "no_end" "both_ends" b7)

/-- Observation function: the `py` coordinate of a successfully tracked
particle beam (and `0` on errors or parametric beams). -/
def pyOfTrack : Except TrackError Beam → ℝ
  | .ok (.particle pb) => pb.py
  | _ => 0

/-- A concrete nonlinear-method dipole with `gap = 1 > 0`,
`fringe_integral = 1/4 > 0` and a vanishing exit fringe integral. -/
def d7b : DipoleS :=
  { length := 1, p0c := 1, angle := 1, k1 := 0, e1 := 0, e2 := 0, tilt := 0,
    gap := 1, gap_exit := 1, fringe_integral := 1 / 4,
    fringe_integral_exit := 0, fringe_at := "no_end",
    fringe_type := "linear_edge", tracking_method := "bmadx" }

/-- A concrete incoming particle with a unit vertical offset. -/
def pb7 : ParticleBeam :=
  { x := 0, px := 0, y := 1, py := 0, tau := 0, delta := 0, energy := 1,
    charge := 1 }

/-- Helper: with the fringe disabled, the Bmad-X pipeline on `pb7` returns
`py = 0`. -/
lemma track_bmadx_py_noend :
    (DipoleS.track_bmadx cvInst { d7b with fringe_at := "no_end" } pb7).py = 0 := by
  simp [DipoleS.track_bmadx, DipoleS.bmadx_body, DipoleS.bmadx_fringe_linear,
    offset_particle_set, offset_particle_unset, cvInst, d7b, pb7]

/-- Helper: with the fringe enabled at both ends, the Bmad-X pipeline on
`pb7` returns `py = tan (1/4)` (the entrance kick `y·hy`). -/
lemma track_bmadx_py_bothends :
    (DipoleS.track_bmadx cvInst { d7b with fringe_at := "both_ends" } pb7).py =
      Real.tan (1 / 4) := by
  simp [DipoleS.track_bmadx, DipoleS.bmadx_body, DipoleS.bmadx_fringe_linear,
    offset_particle_set, offset_particle_unset, cvInst, d7b, pb7,
    Real.tan_neg]
  norm_num

/-- C7 (amended): there exist dipole configurations with `gap > 0` and
`fringe_integral > 0`, and incoming beams, for which tracking with
`fringe_at = "no_end"` differs from tracking with `fringe_at = "both_ends"`
— witnessed under the nonlinear method with a nonzero bend and a vertically
offset particle. -/
theorem track_fringe_at_difference_exists :
    ∃ (cv : CoordinateConverter) (base_rmatrix : ℝ → ℝ → ℝ → ℝ → ℝ → M7)
      (rotation_matrix : ℝ → M7) (d : DipoleS) (b : Beam),
      d.gap > 0 ∧ d.fringe_integral > 0 ∧
      DipoleS.track cv base_rmatrix rotation_matrix { d with fringe_at := "no_end" } b ≠
        DipoleS.track cv base_rmatrix rotation_matrix { d with fringe_at := "both_ends" } b := by
  refine ⟨cvInst, brId, rotId, d7b, .particle pb7, one_pos, by norm_num [d7b],
    fun h => ?_⟩
  rw [track_dispatch_bmadx cvInst brId rotId { d7b with fringe_at := "no_end" } pb7 rfl,
    track_dispatch_bmadx cvInst brId rotId { d7b with fringe_at := "both_ends" } pb7 rfl] at h
  have h2 := congrArg pyOfTrack h
  simp only [pyOfTrack] at h2
  rw [track_bmadx_py_noend, track_bmadx_py_bothends] at h2
  have htan : (0 : ℝ) < Real.tan (1 / 4) :=
    Real.tan_pos_of_pos_of_lt_pi_div_two (by norm_num)
      (by linarith [Real.pi_gt_three])
  linarith [h2, htan]

end Cheetah
